import Mathlib

/-!
Shallow embedding of `src/battery_monitor.c` (cool-little-battery),
covering the escalation logic of `check_battery_timer`, the suspend
fallback chain of `force_system_suspend`, the hardware probe
`get_battery_status`, and the configuration loader `load_config` /
`init_default_config`.  Machine `int` values are modelled as `Int`;
C truthiness (`if (x)`) is modelled as `x ≠ 0`.
-/

namespace BatteryMonitor

/-- Mirror of the C struct `BatteryStatus` (battery_monitor.c:51-57).
`charging` is a `Bool` because the C field is only ever 0/1, set from
`strcmp(status, "Charging") == 0`; `present` likewise. -/
structure BatteryStatus where
  percentage : Int
  charging : Bool
  present : Bool
  status : String
  time_remaining : Int
deriving Repr, DecidableEq

/-- Zero-initialised `BatteryStatus status = {0};` (battery_monitor.c:193). -/
def zeroStatus : BatteryStatus :=
  { percentage := 0, charging := false, present := false, status := "", time_remaining := 0 }

/-- Mirror of the C struct `BatteryConfig` (battery_monitor.c:25-37).
Integer flags (`force_suspend`, `impossible_alerts`) stay `Int`, as in
the C, where any nonzero value is truthy. -/
structure BatteryConfig where
  warning_level : Int
  critical_level : Int
  check_interval : Int
  alert_timeout : Int
  config_path : String
  icon_charging : String
  icon_battery : String
  icon_low : String
  force_suspend : Int
  impossible_alerts : Int
  suspend_method : Int
deriving Repr, DecidableEq

/-- Mirror of `init_default_config` (battery_monitor.c:80-102); `home`
models `getenv("HOME")` (`none` = unset). -/
def init_default_config (home : Option String) : BatteryConfig :=
  { warning_level := 20
    critical_level := 10
    check_interval := 30
    alert_timeout := 30
    force_suspend := 1
    impossible_alerts := 1
    suspend_method := 0
    icon_charging := "battery-caution-charging"
    icon_battery := "battery-good"
    icon_low := "battery-caution"
    config_path :=
      match home with
      | some h => h ++ "/.config/cool-little-battery-monitor.conf"
      | none => "/tmp/cool-little-battery-monitor.conf" }

/-- The mutable escalation state: the C globals `last_percentage`,
`last_charging_state`, `last_alert_time`, `alert_active`, and whether
`alert_dialog` is non-NULL (battery_monitor.c:44-48). -/
structure EscalationState where
  last_percentage : Int
  last_charging_state : Int
  last_alert_time : Int
  alert_active : Int
  alert_dialog : Bool
deriving Repr, DecidableEq

/-- The globals' initialisers: `-1, -1, 0, 0, NULL` (battery_monitor.c:44-48). -/
def initState : EscalationState :=
  { last_percentage := -1, last_charging_state := -1, last_alert_time := 0,
    alert_active := 0, alert_dialog := false }

/-- C assignment of a boolean int (`last_charging_state = status.charging`). -/
def bint (b : Bool) : Int := if b then 1 else 0

/-- Observable effects of one `check_battery_timer` run.  `updateDisplay`
is `update_tray_icon(status)`; `notify u` is `show_notification(_,_,u)`
(titles/messages elided — only the urgency string steers behaviour);
`impossibleAlert` is a `show_impossible_alert` dialog actually shown;
`dismissAlert` is `gtk_widget_destroy(alert_dialog)` of an open dialog;
`suspend` is an invocation of `force_system_suspend` (modelled
separately below). -/
inductive Action where
  | updateDisplay : BatteryStatus → Action
  | notify : String → Action
  | impossibleAlert : Action
  | dismissAlert : Action
  | suspend : Action
deriving Repr, DecidableEq

/-- Alert actions of `show_impossible_alert` (battery_monitor.c:297-325):
a dialog is shown only when `config.impossible_alerts` is truthy. -/
def impossibleAlertActions (cfg : BatteryConfig) : List Action :=
  if cfg.impossible_alerts ≠ 0 then [Action.impossibleAlert] else []

/-- State after the alert block of the critical/warning branches:
`show_impossible_alert` (when enabled) runs the dialog to completion,
leaving `alert_dialog = NULL` and `alert_active = 1`
(battery_monitor.c:320-324), then `last_alert_time = current_time`
(battery_monitor.c:412,429). -/
def alertStateAfter (cfg : BatteryConfig) (st : EscalationState) (now : Int) :
    EscalationState :=
  let st1 :=
    if cfg.impossible_alerts ≠ 0 then
      { st with alert_dialog := false, alert_active := 1 }
    else st
  { st1 with last_alert_time := now }

/-- The grace sequence inside the critical branch
(battery_monitor.c:401-410): only when `config.force_suspend` is truthy,
sleep 10s, re-sample (`resample` is the `final_check` read), and call
`force_system_suspend` iff the re-sample is still at most critical and
not charging.  The `present` flag of the re-sample is not consulted. -/
def graceActions (cfg : BatteryConfig) (resample : BatteryStatus) : List Action :=
  if cfg.force_suspend ≠ 0 then
    if resample.percentage ≤ cfg.critical_level ∧ resample.charging = false then
      [Action.suspend]
    else []
  else []

/-- Shallow embedding of `check_battery_timer` (battery_monitor.c:362-444)
as a pure step function: the sampled `status`, the `config`, the global
state, `current_time`, and the grace-period re-sample are explicit
inputs; the result is the new global state and the emitted actions, in
program order.
Branches, in the source's order:
absent (early return, state untouched, battery_monitor.c:365-368);
charging (clear alert, dismiss dialog, update last fields, return,
battery_monitor.c:376-385); critical with 30s anti-spam guard and grace
sequence (battery_monitor.c:388-413); warning with 120s guard
(battery_monitor.c:416-430); normal (clear alert, battery_monitor.c:431-438);
then the unconditional `last_percentage`/`last_charging_state`
updates (battery_monitor.c:440-441) on every path that reaches them. -/
def check_battery_timer (status : BatteryStatus) (cfg : BatteryConfig)
    (st : EscalationState) (now : Int) (resample : BatteryStatus) :
    EscalationState × List Action :=
  if status.present = false then
    (st, [Action.updateDisplay status])
  else if status.charging = true then
    ({ st with alert_active := 0, alert_dialog := false,
               last_percentage := status.percentage,
               last_charging_state := bint status.charging },
     Action.updateDisplay status ::
       (if st.alert_dialog then [Action.dismissAlert] else []))
  else if status.percentage ≤ cfg.critical_level then
    if now - st.last_alert_time > 30 then
      ({ alertStateAfter cfg st now with
           last_percentage := status.percentage,
           last_charging_state := bint status.charging },
       Action.updateDisplay status :: Action.notify "critical" ::
         (impossibleAlertActions cfg ++ graceActions cfg resample))
    else
      ({ st with last_percentage := status.percentage,
                 last_charging_state := bint status.charging },
       [Action.updateDisplay status])
  else if status.percentage ≤ cfg.warning_level then
    if now - st.last_alert_time > 120 then
      ({ alertStateAfter cfg st now with
           last_percentage := status.percentage,
           last_charging_state := bint status.charging },
       Action.updateDisplay status :: Action.notify "critical" ::
         impossibleAlertActions cfg)
    else
      ({ st with last_percentage := status.percentage,
                 last_charging_state := bint status.charging },
       [Action.updateDisplay status])
  else
    ({ st with alert_active := 0, alert_dialog := false,
               last_percentage := status.percentage,
               last_charging_state := bint status.charging },
     Action.updateDisplay status ::
       (if st.alert_dialog then [Action.dismissAlert] else []))

/-- One `/sys/class/power_supply/BATn` directory as `get_battery_status`
reads it (battery_monitor.c:202-238): the parsed contents of the
`present`, `capacity` and `status` files, `none` when the file cannot
be opened or parsed. -/
structure PowerDevice where
  present : Option Int
  capacity : Option Int
  statusStr : Option String
deriving Repr, DecidableEq

/-- Shallow embedding of `get_battery_status` (battery_monitor.c:192-242)
over the fixed probe list (`BAT0`, `BAT1` in the C, here the list
`devs`): the first device whose `present` file reads nonzero wins;
missing `capacity`/`status` reads leave the zero-initialised fields
(`percentage = 0`, `status = ""`, hence `charging = false`); if no
device is present the zero-initialised struct is returned. -/
def get_battery_status : List PowerDevice → BatteryStatus
  | [] => zeroStatus
  | d :: ds =>
    match d.present with
    | none => get_battery_status ds
    | some p =>
      if p ≠ 0 then
        let stStr := d.statusStr.getD ""
        { percentage := d.capacity.getD 0
          charging := stStr = "Charging"
          present := true
          status := stStr
          time_remaining := 0 }
      else get_battery_status ds

/-- Digit run of C `atoi`: consume leading decimal digits, stop at the
first non-digit. -/
def digitsVal : List Char → Nat → Nat
  | [], acc => acc
  | c :: cs, acc =>
    if c.isDigit then digitsVal cs (acc * 10 + (c.toNat - 48)) else acc

/-- C `atoi` on the parsed value token: skip leading whitespace, an
optional sign, then leading digits; 0 when no digits are found. -/
def atoi (s : String) : Int :=
  let cs := s.toList.dropWhile Char.isWhitespace
  match cs with
  | '-' :: rest => -(digitsVal rest 0 : Int)
  | '+' :: rest => (digitsVal rest 0 : Int)
  | _ => (digitsVal cs 0 : Int)

/-- The `sscanf(line, "%255[^=]=%255s", key, value) == 2` parse of one
config line (battery_monitor.c:121): a nonempty run of non-`=`
characters, a literal `=`, then a nonempty whitespace-delimited token
(`%s` skips leading whitespace).  The 255-byte field widths are elided:
`fgets` already bounds lines at 511 bytes and every key in the file
format is far shorter. -/
def parseLine (line : String) : Option (String × String) :=
  let cs := line.toList
  let key := cs.takeWhile (fun c => c ≠ '=')
  if key.isEmpty then none
  else
    match cs.drop key.length with
    | '=' :: valPart =>
      let tok := (valPart.dropWhile Char.isWhitespace).takeWhile
        (fun c => ¬ c.isWhitespace)
      if tok.isEmpty then none
      else some (String.mk key, String.mk tok)
    | _ => none

/-- The recognised-key dispatch of `load_config`'s read loop — the
`strcmp` chain at battery_monitor.c:122-142: a recognised key overwrites
exactly its field (integer fields through `atoi`, with no range
validation); an unrecognised key is ignored. -/
def applyKV (cfg : BatteryConfig) (key value : String) : BatteryConfig :=
  if key = "warning_level" then { cfg with warning_level := atoi value }
  else if key = "critical_level" then { cfg with critical_level := atoi value }
  else if key = "check_interval" then { cfg with check_interval := atoi value }
  else if key = "alert_timeout" then { cfg with alert_timeout := atoi value }
  else if key = "force_suspend" then { cfg with force_suspend := atoi value }
  else if key = "impossible_alerts" then { cfg with impossible_alerts := atoi value }
  else if key = "suspend_method" then { cfg with suspend_method := atoi value }
  else if key = "icon_charging" then { cfg with icon_charging := value }
  else if key = "icon_battery" then { cfg with icon_battery := value }
  else if key = "icon_low" then { cfg with icon_low := value }
  else cfg

/-- The per-line body of `load_config`'s read loop
(battery_monitor.c:113-144): comments and empty lines
(`line[0] == '#' || line[0] == '\0'`, battery_monitor.c:118) are
skipped; a line that fails the `sscanf` parse is skipped; otherwise the
key dispatch runs.  Lines arrive with the trailing newline already
stripped (battery_monitor.c:115). -/
def applyLine (cfg : BatteryConfig) (line : String) : BatteryConfig :=
  if line.toList.headD ' ' = '#' ∨ line.toList = [] then cfg
  else
    match parseLine line with
    | none => cfg
    | some (key, value) => applyKV cfg key value

/-- Shallow embedding of `load_config` (battery_monitor.c:105-148): fold
the per-line update over the file's lines.  A missing file corresponds
to `lines = []` (the C returns with `cfg` untouched).  The function is
total: no line can abort the load. -/
def load_config (cfg : BatteryConfig) (lines : List String) : BatteryConfig :=
  lines.foldl applyLine cfg

/-- The fixed `suspend_commands` table of `force_system_suspend`
(battery_monitor.c:337-342): systemd, pm-utils, dbus, kernel-direct. -/
def suspend_commands : List String :=
  ["systemctl suspend",
   "pm-suspend",
   "dbus-send --system --print-reply --dest=org.freedesktop.login1 /org/freedesktop/login1 \"org.freedesktop.login1.Manager.Suspend\" boolean:true",
   "echo mem > /sys/power/state"]

/-- Command string of table entry `i`. -/
def suspendCmd (i : Nat) : String := suspend_commands.getD i ""

/-- The fallback `for (int i = 0; i < 4; i++)` loop of
`force_system_suspend` (battery_monitor.c:349-356), abstracted over the
index list: skip the configured `method`, run each remaining command
through the oracle `run` (`run c = true` iff `system(c) == 0`), and
break at the first success.  Returns the attempted commands with their
success flags, in order. -/
def fallbackLoop (run : String → Bool) (method : Nat) : List Nat → List (String × Bool)
  | [] => []
  | i :: is =>
    if i = method then fallbackLoop run method is
    else if run (suspendCmd i) then [(suspendCmd i, true)]
    else (suspendCmd i, false) :: fallbackLoop run method is

/-- Shallow embedding of `force_system_suspend` (battery_monitor.c:328-359)
as the trace of attempted suspend commands with their exit indicators
(`true` = `system` returned 0): the configured method runs first; only
on its failure does the fallback loop try the remaining table entries in
order, stopping at the first success.  Out-of-range `suspend_method`
runs nothing (battery_monitor.c:344).  The C function returns `void`;
its observable behaviour is exactly this `system()`-call trace (the
final-warning `show_notification` at battery_monitor.c:332 is elided,
being unconditional). -/
def force_system_suspend (method : Int) (run : String → Bool) : List (String × Bool) :=
  if 0 ≤ method ∧ method < 4 then
    let m := method.toNat
    if run (suspendCmd m) then [(suspendCmd m, true)]
    else (suspendCmd m, false) :: fallbackLoop run m [0, 1, 2, 3]
  else []

/-- Result abstraction of the spec's `SuspendExecutor.suspend` contract. -/
inductive SuspendResult where
  | success : SuspendResult
  | allMethodsFailed : List (String × Bool) → SuspendResult
deriving Repr, DecidableEq

/-- Modelled from the spec: the C `force_system_suspend` returns `void`,
so the spec's `Result<Unit, SuspendError>` is read off the attempt
trace — success iff some attempted command exited 0, otherwise
`AllMethodsFailed` carrying the attempted methods and their exit
indicators. -/
def suspendOutcome (trace : List (String × Bool)) : SuspendResult :=
  if trace.any (fun p => p.2) then SuspendResult.success
  else SuspendResult.allMethodsFailed trace

/-- Spec-side description of the fallback chain ("attempt the configured
method first; on failure, attempt every remaining method in table order,
stopping at first success"): run down a command list, cutting at the
first success. -/
def attemptChain (run : String → Bool) : List String → List (String × Bool)
  | [] => []
  | c :: cs =>
    if run c then [(c, true)]
    else (c, false) :: attemptChain run cs

/-! Shared concrete scenarios used by several theorems. -/

/-- A present, discharging reading at the default critical level. -/
def critReading : BatteryStatus :=
  { percentage := 10, charging := false, present := true,
    status := "Discharging", time_remaining := 0 }

/-- A present, charging reading at the default critical level. -/
def chargingReading : BatteryStatus :=
  { percentage := 10, charging := true, present := true,
    status := "Charging", time_remaining := 0 }

/-- An absent reading carrying a nonzero percentage. -/
def absentReading : BatteryStatus :=
  { percentage := 50, charging := false, present := false,
    status := "", time_remaining := 0 }

/-- C2: for every present, charging reading, `check_battery_timer` clears
`alert_active`, dismisses an open alert dialog, updates
`last_percentage`/`last_charging_state`, and emits no `Suspend`, no
`Notify` and no `ImpossibleAlert` — no escalation logic runs, whatever
the percentage. -/
theorem charging_branch_clears_and_never_suspends
    (status : BatteryStatus) (cfg : BatteryConfig) (st : EscalationState)
    (now : Int) (resample : BatteryStatus)
    (hp : status.present = true) (hc : status.charging = true) :
    (check_battery_timer status cfg st now resample).1.alert_active = 0 ∧
    (check_battery_timer status cfg st now resample).1.alert_dialog = false ∧
    (st.alert_dialog = true →
      Action.dismissAlert ∈ (check_battery_timer status cfg st now resample).2) ∧
    (check_battery_timer status cfg st now resample).1.last_percentage
      = status.percentage ∧
    (check_battery_timer status cfg st now resample).1.last_charging_state = 1 ∧
    Action.suspend ∉ (check_battery_timer status cfg st now resample).2 ∧
    Action.notify "critical" ∉ (check_battery_timer status cfg st now resample).2 ∧
    Action.impossibleAlert ∉ (check_battery_timer status cfg st now resample).2 := by
  by_cases hd : st.alert_dialog <;>
    simp [check_battery_timer, hp, hc, bint, hd]

/-- Closed witness for `charging_branch_clears_and_never_suspends` at the
charging reading, default config, fresh state. -/
theorem charging_branch_clears_and_never_suspends_witness :
    (check_battery_timer chargingReading (init_default_config none) initState 0
        chargingReading).1.alert_active = 0 ∧
    Action.suspend ∉
      (check_battery_timer chargingReading (init_default_config none) initState 0
        chargingReading).2 := by
  have h := charging_branch_clears_and_never_suspends chargingReading
    (init_default_config none) initState 0 chargingReading rfl rfl
  exact ⟨h.1, h.2.2.2.2.2.1⟩

/-- C3: in a critical-band evaluation (present, not charging, percentage
at most `critical_level`) with `force_suspend = 0`, no `Suspend` action
is emitted — `force_system_suspend` is never reached — and every emitted
action is a display update, a notification, or an impossible alert. -/
theorem no_force_suspend_never_suspends
    (status : BatteryStatus) (cfg : BatteryConfig) (st : EscalationState)
    (now : Int) (resample : BatteryStatus)
    (hp : status.present = true) (hc : status.charging = false)
    (hcrit : status.percentage ≤ cfg.critical_level)
    (hfs : cfg.force_suspend = 0) :
    Action.suspend ∉ (check_battery_timer status cfg st now resample).2 ∧
    ∀ a ∈ (check_battery_timer status cfg st now resample).2,
      a = Action.updateDisplay status ∨ a = Action.notify "critical" ∨
      a = Action.impossibleAlert := by
  by_cases hg : now - st.last_alert_time > 30 <;>
    by_cases hia : cfg.impossible_alerts = 0 <;>
      simp [check_battery_timer, hp, hc, hcrit, hg, hia,
        impossibleAlertActions, graceActions, hfs]

/-- Closed witness for `no_force_suspend_never_suspends`: default config
with `force_suspend` switched off, critical reading, alert window open. -/
theorem no_force_suspend_never_suspends_witness :
    Action.suspend ∉
      (check_battery_timer critReading
        { init_default_config none with force_suspend := 0 }
        initState 31 critReading).2 := by
  exact (no_force_suspend_never_suspends critReading
    { init_default_config none with force_suspend := 0 }
    initState 31 critReading rfl rfl (by decide) rfl).1

/-- C1 counterexample: with the default config (critical 10, warning 20),
a fresh state (whose `last_alert_time` initialiser is 0) and the
critical reading evaluated at `now = 0`, the guard
`current_time - last_alert_time > 30` is `0 > 30` and fails, so no
`Notify`, no `ImpossibleAlert` and no `Suspend` is emitted — the claim's
"at t=0 the Notify+ImpossibleAlert fire" is false on the code. -/
theorem critical_at_t0_fresh_state_silent :
    Action.notify "critical" ∉
      (check_battery_timer critReading (init_default_config none) initState 0
        critReading).2 ∧
    Action.impossibleAlert ∉
      (check_battery_timer critReading (init_default_config none) initState 0
        critReading).2 ∧
    Action.suspend ∉
      (check_battery_timer critReading (init_default_config none) initState 0
        critReading).2 := by
  decide

/-- C1 (amended): for a present, non-charging reading with percentage at
most `critical_level` and `now - last_alert_time > 30` (which at the
fresh state's `last_alert_time = 0` requires `now > 30`, e.g. `now = 31`
rather than the claim's `t = 0`), the evaluation emits `Notify`,
emits `ImpossibleAlert` exactly when `impossible_alerts` is enabled,
and — when `force_suspend` is enabled — emits `Suspend` iff the grace
re-sample is still at most critical and not charging (in particular not
when the re-sample is charging); `last_alert_time` is updated to `now`. -/
theorem critical_band_alert_and_grace
    (status : BatteryStatus) (cfg : BatteryConfig) (st : EscalationState)
    (now : Int) (resample : BatteryStatus)
    (hp : status.present = true) (hc : status.charging = false)
    (hcrit : status.percentage ≤ cfg.critical_level)
    (hg : now - st.last_alert_time > 30) :
    Action.notify "critical" ∈ (check_battery_timer status cfg st now resample).2 ∧
    (cfg.impossible_alerts ≠ 0 →
      Action.impossibleAlert ∈ (check_battery_timer status cfg st now resample).2) ∧
    (cfg.impossible_alerts = 0 →
      Action.impossibleAlert ∉ (check_battery_timer status cfg st now resample).2) ∧
    (cfg.force_suspend ≠ 0 →
      ((resample.percentage ≤ cfg.critical_level ∧ resample.charging = false) →
        Action.suspend ∈ (check_battery_timer status cfg st now resample).2) ∧
      (resample.charging = true →
        Action.suspend ∉ (check_battery_timer status cfg st now resample).2)) ∧
    (cfg.force_suspend = 0 →
      Action.suspend ∉ (check_battery_timer status cfg st now resample).2) ∧
    (check_battery_timer status cfg st now resample).1.last_alert_time = now := by
  by_cases hia : cfg.impossible_alerts = 0 <;>
    by_cases hfs : cfg.force_suspend = 0 <;>
      by_cases hre : resample.percentage ≤ cfg.critical_level ∧ resample.charging = false <;>
        simp [check_battery_timer, alertStateAfter, hp, hc, hcrit, hg, hia, hfs, hre,
          impossibleAlertActions, graceActions]

/-- Closed witness for `critical_band_alert_and_grace`: the claim's
concrete scenario at the amended time `now = 31` — default config
(critical 10, warning 20), fresh state, reading `pct = 10`,
`charging = false`: Notify and ImpossibleAlert fire, the still-critical
re-sample yields `Suspend`, the charging re-sample does not. -/
theorem critical_band_alert_and_grace_witness :
    Action.notify "critical" ∈
      (check_battery_timer critReading (init_default_config none) initState 31
        critReading).2 ∧
    Action.impossibleAlert ∈
      (check_battery_timer critReading (init_default_config none) initState 31
        critReading).2 ∧
    Action.suspend ∈
      (check_battery_timer critReading (init_default_config none) initState 31
        critReading).2 ∧
    Action.suspend ∉
      (check_battery_timer critReading (init_default_config none) initState 31
        chargingReading).2 := by
  have h1 := critical_band_alert_and_grace critReading (init_default_config none)
    initState 31 critReading rfl rfl (by decide) (by decide)
  have h2 := critical_band_alert_and_grace critReading (init_default_config none)
    initState 31 chargingReading rfl rfl (by decide) (by decide)
  refine ⟨h1.1, h1.2.1 (by decide), ?_, ?_⟩
  · exact (h1.2.2.2.1 (by decide)).1 (by decide)
  · exact (h2.2.2.2.1 (by decide)).2 rfl

/-- C4: a critical-band evaluation of the default-config scenario at
`now = 15` from any state whose `last_alert_time` is 0 — which is what
the state holds after a critical evaluation at `t = 0`, whether or not
that first evaluation fired an alert (firing sets `last_alert_time` to
the firing time 0, not firing leaves the initial 0) — emits no new
`Notify`, no new `ImpossibleAlert` and no `Suspend`, and leaves
`last_alert_time` unchanged: the 30s window is measured from the last
alert time, and the second poll does not re-enter the grace sequence. -/
theorem second_critical_poll_in_window_silent (st : EscalationState)
    (h : st.last_alert_time = 0) :
    Action.notify "critical" ∉
      (check_battery_timer critReading (init_default_config none) st 15
        critReading).2 ∧
    Action.impossibleAlert ∉
      (check_battery_timer critReading (init_default_config none) st 15
        critReading).2 ∧
    Action.suspend ∉
      (check_battery_timer critReading (init_default_config none) st 15
        critReading).2 ∧
    (check_battery_timer critReading (init_default_config none) st 15
        critReading).1.last_alert_time = 0 := by
  simp [check_battery_timer, critReading, init_default_config, h]

/-- Closed witness for `second_critical_poll_in_window_silent`: the state
reached by the first critical evaluation at `t = 0` from the fresh
state. -/
theorem second_critical_poll_in_window_silent_witness :
    Action.suspend ∉
      (check_battery_timer critReading (init_default_config none)
        (check_battery_timer critReading (init_default_config none) initState 0
          critReading).1 15 critReading).2 := by
  exact (second_critical_poll_in_window_silent
    (check_battery_timer critReading (init_default_config none) initState 0
      critReading).1 (by decide)).2.2.1

/-- C5: for a present, non-charging reading in the warning band
(`critical_level < percentage ≤ warning_level`): inside the 120s window
no `Notify` and no `ImpossibleAlert` is emitted and `last_alert_time` is
unchanged; outside it `Notify` fires, `ImpossibleAlert` fires exactly
when `impossible_alerts` is enabled, and `last_alert_time` becomes
`now`; a `Suspend` action is never emitted in the warning band. -/
theorem warning_band_suppression_and_realert
    (status : BatteryStatus) (cfg : BatteryConfig) (st : EscalationState)
    (now : Int) (resample : BatteryStatus)
    (hp : status.present = true) (hc : status.charging = false)
    (hlow : cfg.critical_level < status.percentage)
    (hhigh : status.percentage ≤ cfg.warning_level) :
    (now - st.last_alert_time ≤ 120 →
      Action.notify "critical" ∉ (check_battery_timer status cfg st now resample).2 ∧
      Action.impossibleAlert ∉ (check_battery_timer status cfg st now resample).2 ∧
      (check_battery_timer status cfg st now resample).1.last_alert_time
        = st.last_alert_time) ∧
    (now - st.last_alert_time > 120 →
      Action.notify "critical" ∈ (check_battery_timer status cfg st now resample).2 ∧
      (cfg.impossible_alerts ≠ 0 →
        Action.impossibleAlert ∈ (check_battery_timer status cfg st now resample).2) ∧
      (cfg.impossible_alerts = 0 →
        Action.impossibleAlert ∉ (check_battery_timer status cfg st now resample).2) ∧
      (check_battery_timer status cfg st now resample).1.last_alert_time = now) ∧
    Action.suspend ∉ (check_battery_timer status cfg st now resample).2 := by
  have hnc : ¬ status.percentage ≤ cfg.critical_level := not_le.mpr hlow
  by_cases hg : now - st.last_alert_time > 120 <;>
    by_cases hia : cfg.impossible_alerts = 0 <;>
      simp [check_battery_timer, alertStateAfter, hp, hc, hnc, hhigh, hg, hia,
        impossibleAlertActions] <;>
        omega

/-- Closed witness for `warning_band_suppression_and_realert`: a 15%
reading, default config, evaluated both inside (`now = 100`) and the
state update checked through the theorem's conclusions. -/
theorem warning_band_suppression_and_realert_witness :
    Action.notify "critical" ∉
      (check_battery_timer
        { percentage := 15, charging := false, present := true,
          status := "Discharging", time_remaining := 0 }
        (init_default_config none) initState 100 zeroStatus).2 ∧
    Action.notify "critical" ∈
      (check_battery_timer
        { percentage := 15, charging := false, present := true,
          status := "Discharging", time_remaining := 0 }
        (init_default_config none) initState 121 zeroStatus).2 := by
  have h1 := warning_band_suppression_and_realert
    { percentage := 15, charging := false, present := true,
      status := "Discharging", time_remaining := 0 }
    (init_default_config none) initState 100 zeroStatus rfl rfl
    (by decide) (by decide)
  have h2 := warning_band_suppression_and_realert
    { percentage := 15, charging := false, present := true,
      status := "Discharging", time_remaining := 0 }
    (init_default_config none) initState 121 zeroStatus rfl rfl
    (by decide) (by decide)
  exact ⟨(h1.1 (by decide)).1, (h2.2.1 (by decide)).1⟩

/-- C7 counterexample: the absent branch returns early
(battery_monitor.c:365-368), before the `last_percentage` /
`last_charging_state` assignments at battery_monitor.c:440-441, so an
absent reading carrying percentage 50 leaves `last_percentage` at its
initial `-1` — not every evaluation path updates the last fields. -/
theorem absent_branch_leaves_last_fields :
    (check_battery_timer absentReading (init_default_config none) initState 0
        zeroStatus).1.last_percentage ≠ absentReading.percentage ∧
    (check_battery_timer absentReading (init_default_config none) initState 0
        zeroStatus).1.last_percentage = -1 := by
  decide

/-- C7 (amended): every evaluation path with a present reading — the
charging, critical, warning and normal branches alike — updates
`last_percentage`/`last_charging_state` to the current reading before
returning; the absent branch instead returns with the whole state
untouched. -/
theorem last_fields_update_per_branch
    (status : BatteryStatus) (cfg : BatteryConfig) (st : EscalationState)
    (now : Int) (resample : BatteryStatus) :
    (status.present = true →
      (check_battery_timer status cfg st now resample).1.last_percentage
        = status.percentage ∧
      (check_battery_timer status cfg st now resample).1.last_charging_state
        = bint status.charging) ∧
    (status.present = false →
      (check_battery_timer status cfg st now resample).1 = st) := by
  constructor
  · intro hp
    simp only [check_battery_timer, hp]
    split_ifs <;> simp_all
  · intro hp
    simp [check_battery_timer, hp]

/-- Closed witness for `last_fields_update_per_branch`: a present
critical reading updates the last fields; the absent reading leaves the
fresh state intact. -/
theorem last_fields_update_per_branch_witness :
    (check_battery_timer critReading (init_default_config none) initState 31
        zeroStatus).1.last_percentage = critReading.percentage ∧
    (check_battery_timer absentReading (init_default_config none) initState 31
        zeroStatus).1 = initState := by
  exact ⟨((last_fields_update_per_branch critReading (init_default_config none)
      initState 31 zeroStatus).1 rfl).1,
    (last_fields_update_per_branch absentReading (init_default_config none)
      initState 31 zeroStatus).2 rfl⟩

/-- C9: `check_battery_timer` is deterministic — with the reading, the
config, the escalation state, the clock value and the grace-period
re-sample all made explicit inputs of the embedding, equal inputs give
equal successor state and equal action sequence. -/
theorem check_battery_timer_deterministic
    (s₁ s₂ : BatteryStatus) (c₁ c₂ : BatteryConfig)
    (st₁ st₂ : EscalationState) (n₁ n₂ : Int) (r₁ r₂ : BatteryStatus)
    (hs : s₁ = s₂) (hc : c₁ = c₂) (hst : st₁ = st₂) (hn : n₁ = n₂)
    (hr : r₁ = r₂) :
    check_battery_timer s₁ c₁ st₁ n₁ r₁ = check_battery_timer s₂ c₂ st₂ n₂ r₂ := by
  subst hs
  subst hc
  subst hst
  subst hn
  subst hr
  rfl

/-- Closed witness for `check_battery_timer_deterministic` at a concrete
input. -/
theorem check_battery_timer_deterministic_witness :
    check_battery_timer critReading (init_default_config none) initState 31
        critReading
      = check_battery_timer critReading (init_default_config none) initState 31
        critReading := by
  exact check_battery_timer_deterministic critReading critReading
    (init_default_config none) (init_default_config none) initState initState
    31 31 critReading critReading rfl rfl rfl rfl rfl

/-- C10: when every hardware probe fails (each device's `present` file
is unreadable), `get_battery_status` returns the zero-initialised
reading (`present = false`, `percentage = 0`, `charging = false`); the
grace-period re-check (battery_monitor.c:406-409) tests only
`percentage ≤ critical_level && !charging` and never consults `present`,
so with a nonnegative `critical_level` the `Suspend` action is still
emitted: a sampling failure during the grace window does not abort the
suspend. -/
theorem grace_resample_failure_still_suspends
    (devs : List PowerDevice) (hdev : ∀ d ∈ devs, d.present = none)
    (status : BatteryStatus) (cfg : BatteryConfig) (st : EscalationState)
    (now : Int)
    (hp : status.present = true) (hc : status.charging = false)
    (hcrit : status.percentage ≤ cfg.critical_level)
    (hg : now - st.last_alert_time > 30)
    (hfs : cfg.force_suspend ≠ 0)
    (hcl : 0 ≤ cfg.critical_level) :
    get_battery_status devs = zeroStatus ∧
    Action.suspend ∈
      (check_battery_timer status cfg st now (get_battery_status devs)).2 := by
  have hzero : get_battery_status devs = zeroStatus := by
    induction devs with
    | nil => rfl
    | cons d ds ih =>
      have hd := hdev d (List.mem_cons_self d ds)
      simp only [get_battery_status, hd]
      exact ih (fun x hx => hdev x (List.mem_cons_of_mem d hx))
  refine ⟨hzero, ?_⟩
  rw [hzero]
  simp [check_battery_timer, hp, hc, hcrit, hg, graceActions, hfs, zeroStatus, hcl,
    impossibleAlertActions]

/-- Closed witness for `grace_resample_failure_still_suspends`: both
probe directories unreadable, default config, 5% discharging reading at
`now = 31` from the fresh state. -/
theorem grace_resample_failure_still_suspends_witness :
    Action.suspend ∈
      (check_battery_timer
        { percentage := 5, charging := false, present := true,
          status := "Discharging", time_remaining := 0 }
        (init_default_config none) initState 31
        (get_battery_status
          [{ present := none, capacity := none, statusStr := none },
           { present := none, capacity := none, statusStr := none }])).2 := by
  exact (grace_resample_failure_still_suspends
    [{ present := none, capacity := none, statusStr := none },
     { present := none, capacity := none, statusStr := none }]
    (by decide)
    { percentage := 5, charging := false, present := true,
      status := "Discharging", time_remaining := 0 }
    (init_default_config none) initState 31 rfl rfl (by decide) (by decide)
    (by decide) (by decide)).2

/-- The fallback loop is the spec's "remaining methods in table order,
stopping at first success" chain over the index list with the configured
method removed. -/
theorem fallbackLoop_eq_attemptChain (run : String → Bool) (m : Nat) :
    ∀ l : List Nat,
      fallbackLoop run m l
        = attemptChain run ((l.filter (fun i => i != m)).map suspendCmd)
  | [] => rfl
  | i :: is => by
    by_cases him : i = m
    · simp [fallbackLoop, him, fallbackLoop_eq_attemptChain run m is]
    · by_cases hrun : run (suspendCmd i)
      · simp [fallbackLoop, attemptChain, him, hrun]
      · simp [fallbackLoop, attemptChain, him, hrun,
          fallbackLoop_eq_attemptChain run m is]

/-- If some index in the list, other than the skipped method, runs
successfully, then the fallback loop's trace records a success. -/
theorem fallbackLoop_any_success (run : String → Bool) (m i : Nat)
    (him : i ≠ m) (hrun : run (suspendCmd i) = true) :
    ∀ l : List Nat, i ∈ l →
      (fallbackLoop run m l).any (fun p => p.2) = true
  | [], hil => by simp at hil
  | j :: js, hil => by
    by_cases hjm : j = m
    · have hitl : i ∈ js := by
        rcases List.mem_cons.mp hil with hij | hij
        · exact absurd (hij.trans hjm) him
        · exact hij
      simpa [fallbackLoop, hjm] using
        fallbackLoop_any_success run m i him hrun js hitl
    · by_cases hrj : run (suspendCmd j)
      · simp [fallbackLoop, hjm, hrj]
      · have hitl : i ∈ js := by
          rcases List.mem_cons.mp hil with hij | hij
          · rw [hij] at hrun
            exact absurd hrun (by simpa using hrj)
          · exact hij
        simpa [fallbackLoop, hjm, hrj] using
          fallbackLoop_any_success run m i him hrun js hitl

/-- C6: `force_system_suspend` with a valid configured method attempts
that method first and, on its failure, every remaining table entry in
the fixed order (systemd, pm-utils, dbus, kernel-direct), stopping at
the first success — the trace equals the spec's attempt chain over
`configured :: remaining`; when every command fails, the outcome is
`AllMethodsFailed` carrying the full list of the four attempted methods
with their exit indicators; when some method in the table succeeds
under the runner, the outcome is success. -/
theorem force_system_suspend_fallback_chain (method : Int) (run : String → Bool)
    (h0 : 0 ≤ method) (h4 : method < 4) :
    force_system_suspend method run
      = attemptChain run (suspendCmd method.toNat ::
          (([0, 1, 2, 3].filter (fun i => i != method.toNat)).map suspendCmd)) ∧
    ((∀ c, run c = false) →
      suspendOutcome (force_system_suspend method run)
        = SuspendResult.allMethodsFailed (force_system_suspend method run) ∧
      (force_system_suspend method run).length = 4) ∧
    ((∃ i, i < 4 ∧ run (suspendCmd i) = true) →
      suspendOutcome (force_system_suspend method run) = SuspendResult.success) := by
  have hguard : 0 ≤ method ∧ method < 4 := ⟨h0, h4⟩
  refine ⟨?_, ?_, ?_⟩
  · by_cases hm : run (suspendCmd method.toNat)
    · simp [force_system_suspend, hguard, attemptChain, hm]
    · simp [force_system_suspend, hguard, attemptChain, hm,
        fallbackLoop_eq_attemptChain]
  · intro hfail
    have hcases : method = 0 ∨ method = 1 ∨ method = 2 ∨ method = 3 := by omega
    rcases hcases with h | h | h | h <;>
      subst h <;>
        simp [force_system_suspend, fallbackLoop, suspendOutcome, hfail]
  · rintro ⟨i, hi4, hrun⟩
    by_cases hm : run (suspendCmd method.toNat) = true
    · simp [force_system_suspend, hguard, suspendOutcome, hm]
    · have him : i ≠ method.toNat := by
        intro heq
        rw [heq] at hrun
        exact hm hrun
      have hil : i ∈ [0, 1, 2, 3] := by
        interval_cases i <;> simp
      have hany := fallbackLoop_any_success run method.toNat i him hrun
        [0, 1, 2, 3] hil
      simp [force_system_suspend, hguard, suspendOutcome, hm, hany]

/-- Closed witness for `force_system_suspend_fallback_chain`: an
always-failing runner yields `AllMethodsFailed`; a runner under which
only `pm-suspend` succeeds, with method 0 configured, yields success
via the fallback chain. -/
theorem force_system_suspend_fallback_chain_witness :
    suspendOutcome (force_system_suspend 1 (fun _ => false))
      = SuspendResult.allMethodsFailed (force_system_suspend 1 (fun _ => false)) ∧
    suspendOutcome (force_system_suspend 0 (fun c => c == "pm-suspend"))
      = SuspendResult.success := by
  refine ⟨?_, ?_⟩
  · exact ((force_system_suspend_fallback_chain 1 (fun _ => false)
      (by decide) (by decide)).2.1 (fun c => rfl)).1
  · exact (force_system_suspend_fallback_chain 0 (fun c => c == "pm-suspend")
      (by decide) (by decide)).2.2 ⟨1, by decide, by decide⟩

/-- Frame property of the key dispatch: any key other than a field's
own key leaves that field untouched, and no key ever touches
`config_path`. -/
theorem applyKV_frame (cfg : BatteryConfig) (k v : String) :
    (¬ k = "warning_level" → (applyKV cfg k v).warning_level = cfg.warning_level) ∧
    (¬ k = "critical_level" → (applyKV cfg k v).critical_level = cfg.critical_level) ∧
    (¬ k = "check_interval" → (applyKV cfg k v).check_interval = cfg.check_interval) ∧
    (¬ k = "alert_timeout" → (applyKV cfg k v).alert_timeout = cfg.alert_timeout) ∧
    (¬ k = "force_suspend" → (applyKV cfg k v).force_suspend = cfg.force_suspend) ∧
    (¬ k = "impossible_alerts" → (applyKV cfg k v).impossible_alerts = cfg.impossible_alerts) ∧
    (¬ k = "suspend_method" → (applyKV cfg k v).suspend_method = cfg.suspend_method) ∧
    (¬ k = "icon_charging" → (applyKV cfg k v).icon_charging = cfg.icon_charging) ∧
    (¬ k = "icon_battery" → (applyKV cfg k v).icon_battery = cfg.icon_battery) ∧
    (¬ k = "icon_low" → (applyKV cfg k v).icon_low = cfg.icon_low) ∧
    (applyKV cfg k v).config_path = cfg.config_path := by
  have hcases : k = "warning_level" ∨ k = "critical_level" ∨ k = "check_interval" ∨ k = "alert_timeout" ∨ k = "force_suspend" ∨ k = "impossible_alerts" ∨ k = "suspend_method" ∨ k = "icon_charging" ∨ k = "icon_battery" ∨ k = "icon_low" ∨
      (¬ k = "warning_level" ∧ ¬ k = "critical_level" ∧ ¬ k = "check_interval" ∧ ¬ k = "alert_timeout" ∧ ¬ k = "force_suspend" ∧ ¬ k = "impossible_alerts" ∧ ¬ k = "suspend_method" ∧ ¬ k = "icon_charging" ∧ ¬ k = "icon_battery" ∧ ¬ k = "icon_low") := by
    tauto
  rcases hcases with h | h | h | h | h | h | h | h | h | h |
    ⟨h1, h2, h3, h4, h5, h6, h7, h8, h9, h10⟩
  · subst h
    exact ⟨fun hh => absurd rfl hh, fun _ => rfl, fun _ => rfl, fun _ => rfl, fun _ => rfl, fun _ => rfl, fun _ => rfl, fun _ => rfl, fun _ => rfl, fun _ => rfl, rfl⟩
  · subst h
    exact ⟨fun _ => rfl, fun hh => absurd rfl hh, fun _ => rfl, fun _ => rfl, fun _ => rfl, fun _ => rfl, fun _ => rfl, fun _ => rfl, fun _ => rfl, fun _ => rfl, rfl⟩
  · subst h
    exact ⟨fun _ => rfl, fun _ => rfl, fun hh => absurd rfl hh, fun _ => rfl, fun _ => rfl, fun _ => rfl, fun _ => rfl, fun _ => rfl, fun _ => rfl, fun _ => rfl, rfl⟩
  · subst h
    exact ⟨fun _ => rfl, fun _ => rfl, fun _ => rfl, fun hh => absurd rfl hh, fun _ => rfl, fun _ => rfl, fun _ => rfl, fun _ => rfl, fun _ => rfl, fun _ => rfl, rfl⟩
  · subst h
    exact ⟨fun _ => rfl, fun _ => rfl, fun _ => rfl, fun _ => rfl, fun hh => absurd rfl hh, fun _ => rfl, fun _ => rfl, fun _ => rfl, fun _ => rfl, fun _ => rfl, rfl⟩
  · subst h
    exact ⟨fun _ => rfl, fun _ => rfl, fun _ => rfl, fun _ => rfl, fun _ => rfl, fun hh => absurd rfl hh, fun _ => rfl, fun _ => rfl, fun _ => rfl, fun _ => rfl, rfl⟩
  · subst h
    exact ⟨fun _ => rfl, fun _ => rfl, fun _ => rfl, fun _ => rfl, fun _ => rfl, fun _ => rfl, fun hh => absurd rfl hh, fun _ => rfl, fun _ => rfl, fun _ => rfl, rfl⟩
  · subst h
    exact ⟨fun _ => rfl, fun _ => rfl, fun _ => rfl, fun _ => rfl, fun _ => rfl, fun _ => rfl, fun _ => rfl, fun hh => absurd rfl hh, fun _ => rfl, fun _ => rfl, rfl⟩
  · subst h
    exact ⟨fun _ => rfl, fun _ => rfl, fun _ => rfl, fun _ => rfl, fun _ => rfl, fun _ => rfl, fun _ => rfl, fun _ => rfl, fun hh => absurd rfl hh, fun _ => rfl, rfl⟩
  · subst h
    exact ⟨fun _ => rfl, fun _ => rfl, fun _ => rfl, fun _ => rfl, fun _ => rfl, fun _ => rfl, fun _ => rfl, fun _ => rfl, fun _ => rfl, fun hh => absurd rfl hh, rfl⟩
  · unfold applyKV
    rw [if_neg h1, if_neg h2, if_neg h3, if_neg h4, if_neg h5, if_neg h6, if_neg h7,
      if_neg h8, if_neg h9, if_neg h10]
    exact ⟨fun _ => rfl, fun _ => rfl, fun _ => rfl, fun _ => rfl, fun _ => rfl, fun _ => rfl, fun _ => rfl, fun _ => rfl, fun _ => rfl, fun _ => rfl, rfl⟩

/-- Frame property of one config line: a line that does not parse to a
given field's key leaves that field untouched, and no line ever
touches `config_path`. -/
theorem applyLine_frame (cfg : BatteryConfig) (line : String) :
    ((parseLine line).map Prod.fst ≠ some "warning_level" →
      (applyLine cfg line).warning_level = cfg.warning_level) ∧
    ((parseLine line).map Prod.fst ≠ some "critical_level" →
      (applyLine cfg line).critical_level = cfg.critical_level) ∧
    ((parseLine line).map Prod.fst ≠ some "check_interval" →
      (applyLine cfg line).check_interval = cfg.check_interval) ∧
    ((parseLine line).map Prod.fst ≠ some "alert_timeout" →
      (applyLine cfg line).alert_timeout = cfg.alert_timeout) ∧
    ((parseLine line).map Prod.fst ≠ some "force_suspend" →
      (applyLine cfg line).force_suspend = cfg.force_suspend) ∧
    ((parseLine line).map Prod.fst ≠ some "impossible_alerts" →
      (applyLine cfg line).impossible_alerts = cfg.impossible_alerts) ∧
    ((parseLine line).map Prod.fst ≠ some "suspend_method" →
      (applyLine cfg line).suspend_method = cfg.suspend_method) ∧
    ((parseLine line).map Prod.fst ≠ some "icon_charging" →
      (applyLine cfg line).icon_charging = cfg.icon_charging) ∧
    ((parseLine line).map Prod.fst ≠ some "icon_battery" →
      (applyLine cfg line).icon_battery = cfg.icon_battery) ∧
    ((parseLine line).map Prod.fst ≠ some "icon_low" →
      (applyLine cfg line).icon_low = cfg.icon_low) ∧
    (applyLine cfg line).config_path = cfg.config_path := by
  unfold applyLine
  split
  · exact ⟨fun _ => rfl, fun _ => rfl, fun _ => rfl, fun _ => rfl, fun _ => rfl, fun _ => rfl, fun _ => rfl, fun _ => rfl, fun _ => rfl, fun _ => rfl, rfl⟩
  · cases hp : parseLine line with
    | none =>
      exact ⟨fun _ => rfl, fun _ => rfl, fun _ => rfl, fun _ => rfl, fun _ => rfl, fun _ => rfl, fun _ => rfl, fun _ => rfl, fun _ => rfl, fun _ => rfl, rfl⟩
    | some kv =>
      obtain ⟨k, v⟩ := kv
      have hf := applyKV_frame cfg k v
      exact ⟨fun hh => hf.1 (fun he => hh (by subst he; rfl)),
        fun hh => hf.2.1 (fun he => hh (by subst he; rfl)),
        fun hh => hf.2.2.1 (fun he => hh (by subst he; rfl)),
        fun hh => hf.2.2.2.1 (fun he => hh (by subst he; rfl)),
        fun hh => hf.2.2.2.2.1 (fun he => hh (by subst he; rfl)),
        fun hh => hf.2.2.2.2.2.1 (fun he => hh (by subst he; rfl)),
        fun hh => hf.2.2.2.2.2.2.1 (fun he => hh (by subst he; rfl)),
        fun hh => hf.2.2.2.2.2.2.2.1 (fun he => hh (by subst he; rfl)),
        fun hh => hf.2.2.2.2.2.2.2.2.1 (fun he => hh (by subst he; rfl)),
        fun hh => hf.2.2.2.2.2.2.2.2.2.1 (fun he => hh (by subst he; rfl)),
        hf.2.2.2.2.2.2.2.2.2.2⟩

/-- Fold preservation: a field whose value every line of the file
preserves is preserved by the whole load. -/
theorem load_config_keeps_field {α : Type} (f : BatteryConfig → α) :
    ∀ (lines : List String) (cfg : BatteryConfig),
      (∀ cfg' : BatteryConfig, ∀ l ∈ lines, f (applyLine cfg' l) = f cfg') →
      f (load_config cfg lines) = f cfg
  | [], _, _ => rfl
  | l :: ls, cfg, h => by
    have h1 := h cfg l (List.mem_cons_self l ls)
    have h2 := load_config_keeps_field f ls (applyLine cfg l)
      (fun c x hx => h c x (List.mem_cons_of_mem l hx))
    simpa [load_config, List.foldl_cons] using h2.trans h1

/-- C8 counterexample: `load_config` applies `atoi` with no range
validation (battery_monitor.c:122-123), so the out-of-range line
`warning_level=500` yields `warning_level = 500`, not the documented
default 20 — an out-of-range field does not fall back to its default. -/
theorem out_of_range_value_stored_verbatim :
    (load_config (init_default_config none)
        ["warning_level=500"]).warning_level = 500 ∧
    (init_default_config none).warning_level = 20 := by
  decide

/-- C8 (amended): for every configuration field, a file none of whose
lines parses to that field's key leaves the field at its incoming
(default) value — stated for all ten recognised keys, and for
`config_path`, which no line can touch, unconditionally; fields present
in the file take the file's value with integer fields parsed by `atoi`
verbatim — out-of-range values are stored as-is, not replaced by the
default, and a non-numeric value becomes `atoi`'s 0 — unparseable lines
are skipped, and the load is a total function, never aborting:
exhibited on a file with a comment, an out-of-range `warning_level`, a
non-numeric `critical_level`, an in-range `check_interval`, an icon
override, a garbage line and an empty line. -/
theorem load_config_missing_field_defaults (cfg : BatteryConfig)
    (lines : List String) :
    ((∀ l ∈ lines, (parseLine l).map Prod.fst ≠ some "warning_level") →
      (load_config cfg lines).warning_level = cfg.warning_level) ∧
    ((∀ l ∈ lines, (parseLine l).map Prod.fst ≠ some "critical_level") →
      (load_config cfg lines).critical_level = cfg.critical_level) ∧
    ((∀ l ∈ lines, (parseLine l).map Prod.fst ≠ some "check_interval") →
      (load_config cfg lines).check_interval = cfg.check_interval) ∧
    ((∀ l ∈ lines, (parseLine l).map Prod.fst ≠ some "alert_timeout") →
      (load_config cfg lines).alert_timeout = cfg.alert_timeout) ∧
    ((∀ l ∈ lines, (parseLine l).map Prod.fst ≠ some "force_suspend") →
      (load_config cfg lines).force_suspend = cfg.force_suspend) ∧
    ((∀ l ∈ lines, (parseLine l).map Prod.fst ≠ some "impossible_alerts") →
      (load_config cfg lines).impossible_alerts = cfg.impossible_alerts) ∧
    ((∀ l ∈ lines, (parseLine l).map Prod.fst ≠ some "suspend_method") →
      (load_config cfg lines).suspend_method = cfg.suspend_method) ∧
    ((∀ l ∈ lines, (parseLine l).map Prod.fst ≠ some "icon_charging") →
      (load_config cfg lines).icon_charging = cfg.icon_charging) ∧
    ((∀ l ∈ lines, (parseLine l).map Prod.fst ≠ some "icon_battery") →
      (load_config cfg lines).icon_battery = cfg.icon_battery) ∧
    ((∀ l ∈ lines, (parseLine l).map Prod.fst ≠ some "icon_low") →
      (load_config cfg lines).icon_low = cfg.icon_low) ∧
    (load_config cfg lines).config_path = cfg.config_path ∧
    load_config (init_default_config none)
        ["# comment", "warning_level=500", "critical_level=abc",
         "check_interval=45", "icon_low=foo", "garbage", ""]
      = { init_default_config none with
            warning_level := 500, critical_level := 0,
            check_interval := 45, icon_low := "foo" } := by
  refine ⟨?_, ?_, ?_, ?_, ?_, ?_, ?_, ?_, ?_, ?_, ?_, by decide⟩
  · intro hm
    exact load_config_keeps_field (fun c => c.warning_level) lines cfg
      (fun c l hl => (applyLine_frame c l).1 (hm l hl))
  · intro hm
    exact load_config_keeps_field (fun c => c.critical_level) lines cfg
      (fun c l hl => (applyLine_frame c l).2.1 (hm l hl))
  · intro hm
    exact load_config_keeps_field (fun c => c.check_interval) lines cfg
      (fun c l hl => (applyLine_frame c l).2.2.1 (hm l hl))
  · intro hm
    exact load_config_keeps_field (fun c => c.alert_timeout) lines cfg
      (fun c l hl => (applyLine_frame c l).2.2.2.1 (hm l hl))
  · intro hm
    exact load_config_keeps_field (fun c => c.force_suspend) lines cfg
      (fun c l hl => (applyLine_frame c l).2.2.2.2.1 (hm l hl))
  · intro hm
    exact load_config_keeps_field (fun c => c.impossible_alerts) lines cfg
      (fun c l hl => (applyLine_frame c l).2.2.2.2.2.1 (hm l hl))
  · intro hm
    exact load_config_keeps_field (fun c => c.suspend_method) lines cfg
      (fun c l hl => (applyLine_frame c l).2.2.2.2.2.2.1 (hm l hl))
  · intro hm
    exact load_config_keeps_field (fun c => c.icon_charging) lines cfg
      (fun c l hl => (applyLine_frame c l).2.2.2.2.2.2.2.1 (hm l hl))
  · intro hm
    exact load_config_keeps_field (fun c => c.icon_battery) lines cfg
      (fun c l hl => (applyLine_frame c l).2.2.2.2.2.2.2.2.1 (hm l hl))
  · intro hm
    exact load_config_keeps_field (fun c => c.icon_low) lines cfg
      (fun c l hl => (applyLine_frame c l).2.2.2.2.2.2.2.2.2.1 (hm l hl))
  · exact load_config_keeps_field (fun c => c.config_path) lines cfg
      (fun c l hl => (applyLine_frame c l).2.2.2.2.2.2.2.2.2.2)

/-- Closed witness for `load_config_missing_field_defaults`: a file
setting `warning_level` and `check_interval` leaves the missing
`alert_timeout` at its default 30 and the missing `icon_battery` at its
default. -/
theorem load_config_missing_field_defaults_witness :
    (load_config (init_default_config none)
        ["warning_level=15", "check_interval=45"]).alert_timeout = 30 ∧
    (load_config (init_default_config none)
        ["warning_level=15", "check_interval=45"]).icon_battery
      = "battery-good" := by
  have h := load_config_missing_field_defaults (init_default_config none)
    ["warning_level=15", "check_interval=45"]
  exact ⟨h.2.2.2.1 (by decide), h.2.2.2.2.2.2.2.2.1 (by decide)⟩

end BatteryMonitor
